import Mathlib

/-!
Shallow embedding of the content-acquisition caching and relevance-ranking
layer of the planner repository:

* `src/planner/services/local_discovery_service.py` — static knowledge base,
  interest scoring/ranking (`_filter_places_by_interests`), conversion to
  `LocalDiscoveryData` (`_convert_to_discovery_data`), AI/fallback paths
  (`discover_places`, `_generate_places_with_ai`, `_fallback_discovery_data`).
* `src/planner/tools/travel_tools.py` — per-URL cache/blacklist gate and
  write-back of `HotelSearchTool._arun` and `ActivitySearchTool._arun`, and
  the duplicate filter of `ActivitySearchTool._arun`.

Machine reals (Python floats for scores and ratings) are modelled as exact
rationals; timestamps (`datetime`) as integer seconds.
-/

namespace Planner

open List

/-! ### String primitives

Python's `a in b`, `str.lower` and `str.strip` over the ASCII strings the
code handles, implemented structurally over character lists so that they
evaluate inside the kernel. -/

/-- `isPre n h` — `n` is a prefix of `h` (character-wise equality). -/
def isPre : List Char → List Char → Bool
  | [], _ => true
  | _ :: _, [] => false
  | a :: as, b :: bs => a == b && isPre as bs

/-- `inChars n h` — `n` occurs as a contiguous run inside `h`. -/
def inChars (n : List Char) : List Char → Bool
  | [] => n.isEmpty
  | b :: bs => isPre n (b :: bs) || inChars n bs

/-- Python's substring test `needle in hay` (true when `needle` is empty). -/
def strIn (needle hay : String) : Bool := inChars needle.data hay.data

/-- ASCII lower-casing of one character (what `str.lower` does on the ASCII
strings this code base manipulates). -/
def lowerChar (c : Char) : Char :=
  if 'A' ≤ c && c ≤ 'Z' then Char.ofNat (c.toNat + 32) else c

/-- Python's `s.lower()`. -/
def pyLower (s : String) : String := ⟨s.data.map lowerChar⟩

/-- Python's `s.strip()`: whitespace removed from both ends. -/
def pyStrip (s : String) : String :=
  ⟨((s.data.dropWhile Char.isWhitespace).reverse.dropWhile
      Char.isWhitespace).reverse⟩

/-! ### Data model of the discovery service -/

/-- One entry of the static knowledge base / one extracted place record.
Field order: name, category, description, rating, price_range, opening_hours,
interests, why_recommended, booking_required, contact_info, seasonal_info,
cuisine.  Optional fields model Python's `dict.get` defaults. -/
structure Place where
  name : String
  category : String
  description : String
  rating : Option ℚ
  price_range : Option String
  opening_hours : Option String
  interests : List String
  why_recommended : String
  booking_required : Bool
  contact_info : Option String
  seasonal_info : Option String
  cuisine : Option String
  deriving DecidableEq, Repr

/-- Builds a knowledge-base place (all eight data fields present, as in every
entry of `_load_places_database`). -/
def mkPlace (name category description : String) (rating : ℚ)
    (price hours : String) (ints : List String) (why : String) : Place :=
  ⟨name, category, description, some rating, some price, some hours, ints,
    why, false, none, none, none⟩

/-- One city of `places_database`: country, coordinates, places. -/
structure City where
  country : String
  coordinates : ℚ × ℚ
  places : List Place
  deriving DecidableEq, Repr

/-- Knowledge-base entry "tokyo" of `_load_places_database`. -/
def tokyoCity : City :=
⟨"Japan", ((Rat.divInt 1396503 10000), (Rat.divInt 178381 5000)), [
  mkPlace "Senso-ji Temple" "religious" "Tokyo's oldest temple, founded in 628 AD" (Rat.divInt 43 10) "Free" "6:00-17:00" ["cultural", "religious", "historical", "landmarks"] "Most visited spiritual site in the world, iconic Tokyo landmark",
  mkPlace "Tokyo National Museum" "museum" "Japan's premier museum with extensive collection of art and antiquities" (Rat.divInt 9 2) "¥1,000" "9:30-17:00" ["museums", "cultural", "art", "historical"] "World's largest collection of Japanese cultural artifacts",
  mkPlace "Shibuya Crossing" "landmark" "World's busiest pedestrian crossing" (Rat.divInt 21 5) "Free" "24/7" ["landmarks", "urban", "photography"] "Iconic Tokyo experience, symbol of urban energy",
  mkPlace "Ueno Park" "park" "Beautiful park famous for cherry blossoms and museums" (Rat.divInt 22 5) "Free" "5:00-23:00" ["parks", "nature", "cherry blossoms", "cultural"] "Best cherry blossom viewing spot in Tokyo",
  mkPlace "Tsukiji Outer Market" "food" "Famous food market with fresh sushi and street food" (Rat.divInt 23 5) "¥500-2,000" "5:00-14:00" ["food", "markets", "sushi", "local experiences"] "Best place for fresh sushi and authentic Japanese breakfast",
  mkPlace "Tokyo Tower" "landmark" "Iconic communications tower with city views" (Rat.divInt 41 10) "¥900-2,800" "9:00-22:30" ["landmarks", "views", "photography"] "Classic Tokyo landmark with panoramic city views",
  mkPlace "Ginza" "shopping" "Luxury shopping district with high-end boutiques" (Rat.divInt 9 2) "¥¥¥¥" "10:00-20:00" ["shopping", "luxury", "fashion"] "Tokyo's most prestigious shopping destination",
  mkPlace "Meiji Shrine" "religious" "Peaceful Shinto shrine dedicated to Emperor Meiji" (Rat.divInt 47 10) "Free" "6:00-18:00" ["religious", "nature", "cultural", "peaceful"] "Spiritual oasis in the heart of Tokyo",
  mkPlace "Akihabara" "district" "Electronics and anime culture district" (Rat.divInt 21 5) "¥¥" "10:00-20:00" ["electronics", "anime", "gaming", "otaku culture"] "Global center of electronics and anime culture",
  mkPlace "Ramen Street" "food" "Famous ramen alley with multiple authentic shops" (Rat.divInt 24 5) "¥800-1,500" "11:00-23:00" ["food", "ramen", "local experiences", "authentic"] "Best authentic ramen experience in Tokyo"
]⟩

/-- Knowledge-base entry "paris" of `_load_places_database`. -/
def parisCity : City :=
⟨"France", ((Rat.divInt 11761 5000), (Rat.divInt 244283 5000)), [
  mkPlace "Eiffel Tower" "landmark" "Iconic iron lattice tower and symbol of Paris" (Rat.divInt 23 5) "€10-25" "9:30-23:45" ["landmarks", "architecture", "views", "photography"] "Most visited paid monument in the world",
  mkPlace "Louvre Museum" "museum" "World's largest art museum, home to the Mona Lisa" (Rat.divInt 9 2) "€15" "9:00-18:00" ["museums", "art", "culture", "history"] "World's most visited museum with unparalleled art collection",
  mkPlace "Notre-Dame Cathedral" "religious" "Gothic cathedral masterpiece (currently under restoration)" (Rat.divInt 22 5) "Free" "8:00-18:45" ["religious", "architecture", "history", "gothic"] "Masterpiece of French Gothic architecture",
  mkPlace "Arc de Triomphe" "landmark" "Triumphal arch honoring those who fought for France" (Rat.divInt 43 10) "€12" "10:00-22:30" ["landmarks", "history", "views", "architecture"] "Historic monument with panoramic views of Paris",
  mkPlace "Montmartre" "district" "Historic hilltop district with artistic heritage" (Rat.divInt 9 2) "Free" "24/7" ["art", "history", "bohemian", "views"] "Former home to Picasso, Renoir, and other famous artists",
  mkPlace "Champs-Élysées" "shopping" "Famous avenue with shops, cafes, and theaters" (Rat.divInt 21 5) "€€€" "10:00-20:00" ["shopping", "cafes", "fashion", "luxury"] "World's most beautiful avenue",
  mkPlace "Seine River Cruise" "experience" "Scenic boat tour along the Seine River" (Rat.divInt 22 5) "€15-25" "10:00-22:00" ["sightseeing", "relaxation", "views", "romantic"] "Best way to see Paris landmarks from the water",
  mkPlace "Sacré-Cœur Basilica" "religious" "Beautiful white basilica atop Montmartre hill" (Rat.divInt 23 5) "Free" "6:00-22:30" ["religious", "architecture", "views"] "Stunning views over Paris and beautiful interior",
  mkPlace "Latin Quarter" "district" "Historic student quarter with narrow streets and cafes" (Rat.divInt 43 10) "€€" "24/7" ["history", "cafes", "nightlife", "intellectual"] "Heart of intellectual Paris with vibrant atmosphere",
  mkPlace "Versailles Palace" "historical" "Opulent royal palace with magnificent gardens" (Rat.divInt 47 10) "€18" "9:00-17:30" ["history", "palaces", "gardens", "luxury"] "Ultimate symbol of French royal extravagance"
]⟩

/-- Knowledge-base entry "london" of `_load_places_database`. -/
def londonCity : City :=
⟨"United Kingdom", ((Rat.divInt (-319) 2500), (Rat.divInt 257537 5000)), [
  mkPlace "Big Ben" "landmark" "Iconic clock tower and symbol of London" (Rat.divInt 22 5) "Free (exterior)" "24/7 (exterior)" ["landmarks", "architecture", "history"] "Most recognizable symbol of London",
  mkPlace "Tower of London" "historical" "Historic castle housing the Crown Jewels" (Rat.divInt 43 10) "£25" "9:00-17:30" ["history", "castles", "crown jewels", "medieval"] "Nearly 1000 years of British history",
  mkPlace "British Museum" "museum" "World-class museum with global artifacts" (Rat.divInt 9 2) "Free" "10:00-17:30" ["museums", "history", "culture", "artifacts"] "One of the world's greatest museums",
  mkPlace "Hyde Park" "park" "Large royal park in central London" (Rat.divInt 21 5) "Free" "5:00-24:00" ["parks", "nature", "relaxation", "royal"] "Perfect escape from city bustle",
  mkPlace "Buckingham Palace" "landmark" "Official London residence of the British monarch" (Rat.divInt 41 10) "£26.50" "9:30-19:30" ["royal", "palaces", "architecture", "history"] "Heart of the British monarchy",
  mkPlace "London Eye" "attraction" "Giant observation wheel with panoramic views" (4 : ℚ) "£27" "10:00-20:30" ["views", "modern", "photography"] "Best views of London skyline",
  mkPlace "Camden Market" "market" "Eclectic market with food, crafts, and vintage finds" (Rat.divInt 43 10) "£" "10:00-18:00" ["markets", "food", "alternative", "vintage"] "Unique London subculture experience",
  mkPlace "Tate Modern" "museum" "Modern art gallery in former power station" (Rat.divInt 22 5) "Free" "10:00-18:00" ["art", "modern", "museums", "contemporary"] "World's leading modern art gallery",
  mkPlace "Covent Garden" "district" "Historic market area with shops and street performers" (Rat.divInt 21 5) "££" "10:00-20:00" ["shopping", "entertainment", "street performers"] "Vibrant area with unique shopping and dining",
  mkPlace "Westminster Abbey" "religious" "Gothic abbey where British monarchs are crowned" (Rat.divInt 23 5) "£23" "9:30-15:30" ["religious", "history", "architecture", "royal"] "Site of royal coronations and weddings"
]⟩

/-- Knowledge-base entry "new york" of `_load_places_database`. -/
def newyorkCity : City :=
⟨"United States", ((Rat.divInt (-37003) 500), (Rat.divInt 50891 1250)), [
  mkPlace "Statue of Liberty" "landmark" "Iconic symbol of freedom and democracy" (Rat.divInt 9 2) "$21.50" "8:30-16:00" ["landmarks", "history", "symbols", "freedom"] "Universal symbol of freedom and democracy",
  mkPlace "Times Square" "district" "Bustling commercial and entertainment hub" (Rat.divInt 41 10) "Free" "24/7" ["entertainment", "shopping", "urban", "nightlife"] "The crossroads of the world",
  mkPlace "Central Park" "park" "Iconic urban park in Manhattan" (Rat.divInt 23 5) "Free" "6:00-1:00" ["parks", "nature", "jogging", "relaxation"] "Manhattan's green oasis",
  mkPlace "Empire State Building" "landmark" "Art Deco skyscraper with observation decks" (Rat.divInt 43 10) "$37" "8:00-2:00" ["landmarks", "views", "architecture", "art deco"] "Iconic NYC skyline views",
  mkPlace "Metropolitan Museum of Art" "museum" "World-renowned art museum" (Rat.divInt 47 10) "$25" "10:00-17:00" ["museums", "art", "culture", "history"] "One of the world's largest and most prestigious art museums",
  mkPlace "Brooklyn Bridge" "landmark" "Historic suspension bridge connecting Manhattan and Brooklyn" (Rat.divInt 9 2) "Free" "24/7" ["landmarks", "architecture", "views", "walking"] "Architectural marvel with spectacular views",
  mkPlace "9/11 Memorial & Museum" "memorial" "Moving tribute to September 11 victims" (Rat.divInt 24 5) "$24" "9:00-20:00" ["memorial", "history", "reflection", "remembrance"] "Important memorial and historical site",
  mkPlace "High Line" "park" "Elevated park built on former railway line" (Rat.divInt 22 5) "Free" "7:00-22:00" ["parks", "art", "urban renewal", "walking"] "Unique urban park experience",
  mkPlace "Broadway Theater District" "entertainment" "World-famous theater district" (Rat.divInt 47 10) "$50-200" "19:00-22:00" ["theater", "entertainment", "musicals", "culture"] "Best theater productions in the world",
  mkPlace "One World Trade Center" "landmark" "Tallest building in NYC with observation deck" (Rat.divInt 21 5) "$32" "9:00-24:00" ["landmarks", "views", "modern", "memorial"] "Symbol of resilience with amazing views"
]⟩

/-- Knowledge-base entry "barcelona" of `_load_places_database`. -/
def barcelonaCity : City :=
⟨"Spain", ((Rat.divInt 10867 5000), (Rat.divInt 413851 10000)), [
  mkPlace "Sagrada Familia" "religious" "Gaudí's unfinished basilica masterpiece" (Rat.divInt 47 10) "€20" "9:00-20:00" ["architecture", "religious", "gaudi", "art"] "Gaudí's architectural masterpiece",
  mkPlace "Park Güell" "park" "Colorful park designed by Antoni Gaudí" (Rat.divInt 9 2) "€7" "8:00-21:00" ["parks", "art", "gaudi", "views"] "Whimsical park with stunning city views",
  mkPlace "Las Ramblas" "street" "Famous pedestrian street in the heart of Barcelona" (Rat.divInt 21 5) "Free" "24/7" ["walking", "street performers", "cafes", "shopping"] "The pulse of Barcelona",
  mkPlace "Gothic Quarter" "district" "Historic medieval neighborhood" (Rat.divInt 22 5) "Free" "24/7" ["history", "medieval", "architecture", "walking"] "Best-preserved medieval quarter in Europe",
  mkPlace "Casa Batlló" "architecture" "Modernist building designed by Gaudí" (Rat.divInt 23 5) "€25" "9:00-21:00" ["architecture", "gaudi", "art", "modernism"] "Gaudí's architectural genius on display",
  mkPlace "La Boqueria Market" "market" "Famous food market with local specialties" (Rat.divInt 43 10) "€€" "8:00-20:30" ["food", "markets", "local", "tapas"] "Best place to experience Catalan cuisine",
  mkPlace "Barceloneta Beach" "beach" "Popular city beach with restaurants and bars" (Rat.divInt 41 10) "Free" "24/7" ["beaches", "relaxation", "swimming", "seafood"] "Perfect urban beach experience",
  mkPlace "Picasso Museum" "museum" "Museum dedicated to Pablo Picasso's early work" (Rat.divInt 22 5) "€12" "9:00-19:00" ["art", "museums", "picasso", "culture"] "Extensive collection of Picasso's formative years"
]⟩

/-- Knowledge-base entry "rome" of `_load_places_database`. -/
def romeCity : City :=
⟨"Italy", ((Rat.divInt 31241 2500), (Rat.divInt 104757 2500)), [
  mkPlace "Colosseum" "historical" "Ancient Roman amphitheater" (Rat.divInt 23 5) "€12" "8:30-19:00" ["history", "ancient", "roman", "gladiators"] "Most famous ancient amphitheater in the world",
  mkPlace "Vatican City" "religious" "Independent city-state with St. Peter's Basilica" (Rat.divInt 24 5) "€17" "8:00-18:00" ["religious", "art", "sistine chapel", "papal"] "Spiritual center of Catholic world",
  mkPlace "Trevi Fountain" "landmark" "Baroque fountain where visitors throw coins" (Rat.divInt 9 2) "Free" "24/7" ["landmarks", "baroque", "fountains", "tradition"] "Most famous fountain in the world",
  mkPlace "Roman Forum" "historical" "Ancient Roman marketplace and political center" (Rat.divInt 22 5) "€12" "8:30-19:00" ["history", "ancient", "roman", "archaeology"] "Heart of ancient Roman civilization",
  mkPlace "Pantheon" "historical" "Ancient Roman temple with massive dome" (Rat.divInt 47 10) "Free" "8:30-19:30" ["architecture", "ancient", "roman", "engineering"] "Best-preserved ancient Roman building",
  mkPlace "Spanish Steps" "landmark" "Famous stairway with 135 steps" (Rat.divInt 21 5) "Free" "24/7" ["landmarks", "stairs", "shopping", "people watching"] "Iconic Roman meeting place",
  mkPlace "Trastevere" "district" "Charming medieval neighborhood" (Rat.divInt 9 2) "€€" "24/7" ["medieval", "restaurants", "nightlife", "authentic"] "Most authentic Roman neighborhood",
  mkPlace "Castel Sant'Angelo" "historical" "Towering cylindrical building in Parco Adriano" (Rat.divInt 43 10) "€14" "9:00-19:30" ["history", "castles", "views", "papal"] "Unique fortress with papal history"
]⟩

/-- Knowledge-base entry "amsterdam" of `_load_places_database`. -/
def amsterdamCity : City :=
⟨"Netherlands", ((Rat.divInt 49041 10000), (Rat.divInt 130919 2500)), [
  mkPlace "Anne Frank House" "museum" "Historic house where Anne Frank wrote her diary" (Rat.divInt 23 5) "€14" "9:00-22:00" ["history", "wwii", "memorial", "education"] "Moving memorial to Holocaust victim",
  mkPlace "Van Gogh Museum" "museum" "World's largest collection of Van Gogh artwork" (Rat.divInt 47 10) "€19" "9:00-17:00" ["art", "museums", "van gogh", "post-impressionism"] "Unmatched collection of Van Gogh masterpieces",
  mkPlace "Rijksmuseum" "museum" "Dutch national museum with Rembrandt and Vermeer" (Rat.divInt 9 2) "€20" "9:00-17:00" ["art", "museums", "dutch masters", "history"] "Premier collection of Dutch Golden Age art",
  mkPlace "Jordaan District" "district" "Charming neighborhood with narrow streets and canals" (Rat.divInt 22 5) "€€" "24/7" ["canals", "boutiques", "cafes", "local life"] "Most picturesque Amsterdam neighborhood",
  mkPlace "Canal Ring" "landmark" "Historic canal system and UNESCO World Heritage site" (Rat.divInt 24 5) "Free (boat tours €15)" "24/7" ["canals", "unesco", "boats", "architecture"] "Unique canal system defining Amsterdam",
  mkPlace "Vondelpark" "park" "Large urban park popular with locals" (Rat.divInt 43 10) "Free" "24/7" ["parks", "relaxation", "cycling", "local life"] "Perfect for experiencing Dutch outdoor culture",
  mkPlace "Red Light District" "district" "Historic area known for its liberal atmosphere" (4 : ℚ) "Free" "24/7" ["nightlife", "history", "liberal culture", "coffee shops"] "Unique cultural and historical area",
  mkPlace "Bloemenmarkt" "market" "Floating flower market" (Rat.divInt 21 5) "€€" "9:00-17:30" ["flowers", "markets", "tulips", "unique"] "World's only floating flower market"
]⟩

/-- Knowledge-base entry "dubai" of `_load_places_database`. -/
def dubaiCity : City :=
⟨"UAE", ((Rat.divInt 138177 2500), (Rat.divInt 15753 625)), [
  mkPlace "Burj Khalifa" "landmark" "World's tallest building" (Rat.divInt 23 5) "AED 149" "8:30-23:00" ["landmarks", "modern", "views", "architecture"] "Tallest building in the world with stunning views",
  mkPlace "Dubai Mall" "shopping" "World's largest mall by total area" (Rat.divInt 9 2) "€€€" "10:00-24:00" ["shopping", "luxury", "entertainment", "dining"] "Ultimate shopping and entertainment destination",
  mkPlace "Palm Jumeirah" "landmark" "Artificial island shaped like a palm tree" (Rat.divInt 22 5) "Free" "24/7" ["modern", "engineering", "beaches", "luxury"] "Engineering marvel visible from space",
  mkPlace "Dubai Marina" "district" "Artificial canal city with skyscrapers" (Rat.divInt 43 10) "€€€" "24/7" ["modern", "yachts", "dining", "nightlife"] "Stunning waterfront with world-class dining",
  mkPlace "Gold Souk" "market" "Traditional gold jewelry market" (Rat.divInt 21 5) "€€€€" "10:00-22:00" ["gold", "jewelry", "traditional", "markets"] "Largest gold market in the world",
  mkPlace "Jumeirah Beach" "beach" "Beautiful white sand beach" (Rat.divInt 22 5) "Free" "24/7" ["beaches", "swimming", "relaxation", "water sports"] "Perfect beach with view of Burj Al Arab",
  mkPlace "Dubai Fountain" "attraction" "Choreographed fountain system" (Rat.divInt 9 2) "Free" "18:00-23:00" ["fountains", "shows", "music", "evening"] "World's largest choreographed fountain system",
  mkPlace "Spice Souk" "market" "Traditional spice and herb market" (Rat.divInt 41 10) "€€" "10:00-22:00" ["spices", "traditional", "markets", "aromatics"] "Authentic Middle Eastern market experience"
]⟩

/-- Knowledge-base entry "sydney" of `_load_places_database`. -/
def sydneyCity : City :=
⟨"Australia", ((Rat.divInt 1512093 10000), (Rat.divInt (-21168) 625)), [
  mkPlace "Sydney Opera House" "landmark" "Iconic performing arts venue" (Rat.divInt 47 10) "AUD 43" "9:00-20:30" ["architecture", "opera", "landmarks", "performing arts"] "UNESCO World Heritage architectural masterpiece",
  mkPlace "Sydney Harbour Bridge" "landmark" "Steel arch bridge connecting Sydney CBD" (Rat.divInt 23 5) "Free (climb AUD 174)" "24/7" ["bridges", "views", "climbing", "architecture"] "Iconic bridge with harbor views",
  mkPlace "Bondi Beach" "beach" "Famous beach with golden sand" (Rat.divInt 43 10) "Free" "24/7" ["beaches", "surfing", "swimming", "coastal walks"] "Australia's most famous beach",
  mkPlace "The Rocks" "district" "Historic area with cobblestone streets" (Rat.divInt 22 5) "Free" "24/7" ["history", "markets", "pubs", "cobblestones"] "Birthplace of modern Australia",
  mkPlace "Royal Botanic Gardens" "park" "Botanic gardens with harbor views" (Rat.divInt 9 2) "Free" "7:00-17:30" ["gardens", "nature", "views", "walking"] "Beautiful gardens with perfect harbor views",
  mkPlace "Darling Harbour" "district" "Waterfront area with attractions" (Rat.divInt 21 5) "€€" "24/7" ["waterfront", "dining", "entertainment", "aquarium"] "Perfect family entertainment precinct",
  mkPlace "Manly Beach" "beach" "Popular beach accessible by ferry" (Rat.divInt 22 5) "Free" "24/7" ["beaches", "ferry", "surfing", "promenade"] "Beautiful beach with scenic ferry ride",
  mkPlace "Circular Quay" "transport" "Harbor transport hub with views" (Rat.divInt 43 10) "Free" "24/7" ["harbors", "transport", "views", "ferries"] "Perfect starting point for harbor exploration"
]⟩

/-- Knowledge-base entry "singapore" of `_load_places_database`. -/
def singaporeCity : City :=
⟨"Singapore", ((Rat.divInt 519099 5000), (Rat.divInt 13521 10000)), [
  mkPlace "Marina Bay Sands" "landmark" "Iconic hotel and casino complex" (Rat.divInt 9 2) "SGD 23" "24/7" ["modern", "architecture", "views", "luxury"] "Iconic skyline landmark with infinity pool",
  mkPlace "Gardens by the Bay" "park" "Futuristic park with Supertree Grove" (Rat.divInt 23 5) "SGD 28" "5:00-2:00" ["gardens", "futuristic", "nature", "technology"] "Stunning fusion of nature and technology",
  mkPlace "Merlion Park" "landmark" "Park featuring Singapore's iconic Merlion statue" (Rat.divInt 21 5) "Free" "24/7" ["landmarks", "symbols", "views", "photography"] "Singapore's most recognizable symbol",
  mkPlace "Chinatown" "district" "Historic district with temples and street food" (Rat.divInt 43 10) "€€" "24/7" ["culture", "food", "temples", "heritage"] "Authentic Chinese culture and cuisine",
  mkPlace "Little India" "district" "Vibrant Indian cultural district" (Rat.divInt 41 10) "€€" "24/7" ["culture", "indian", "temples", "spices"] "Immersive Indian cultural experience",
  mkPlace "Sentosa Island" "island" "Resort island with beaches and attractions" (Rat.divInt 22 5) "SGD 4" "24/7" ["beaches", "theme parks", "resorts", "entertainment"] "Perfect family entertainment destination",
  mkPlace "Hawker Centers" "food" "Open-air food courts with local cuisine" (Rat.divInt 47 10) "SGD 3-8" "10:00-22:00" ["food", "local", "cheap eats", "variety"] "Best way to experience Singapore's food culture",
  mkPlace "Clarke Quay" "district" "Riverside entertainment district" (Rat.divInt 21 5) "€€€" "18:00-2:00" ["nightlife", "dining", "riverside", "entertainment"] "Premier nightlife destination"
]⟩

/-- Knowledge-base entry "bangkok" of `_load_places_database`. -/
def bangkokCity : City :=
⟨"Thailand", ((Rat.divInt 502509 5000), (Rat.divInt 137563 10000)), [
  mkPlace "Grand Palace" "historical" "Former royal residence with ornate architecture" (Rat.divInt 22 5) "THB 500" "8:30-15:30" ["palaces", "thai architecture", "history", "royal"] "Most important architectural site in Thailand",
  mkPlace "Wat Pho" "religious" "Temple complex with giant reclining Buddha" (Rat.divInt 9 2) "THB 100" "8:00-18:30" ["temples", "buddha", "massage", "religious"] "Home to traditional Thai massage",
  mkPlace "Wat Arun" "religious" "Temple of Dawn with stunning spires" (Rat.divInt 23 5) "THB 50" "8:00-18:00" ["temples", "architecture", "river views", "sunrise"] "Most beautiful temple in Bangkok",
  mkPlace "Chatuchak Weekend Market" "market" "Massive weekend market with everything" (Rat.divInt 43 10) "THB 50-500" "9:00-18:00" ["markets", "shopping", "local products", "food"] "Largest weekend market in the world",
  mkPlace "Khao San Road" "street" "Famous backpacker street with bars and food" (Rat.divInt 41 10) "THB 50-200" "18:00-2:00" ["backpacker", "nightlife", "street food", "budget"] "Legendary backpacker destination",
  mkPlace "Floating Markets" "market" "Traditional markets on water" (Rat.divInt 21 5) "THB 100-300" "7:00-12:00" ["markets", "boats", "traditional", "food"] "Unique traditional Thai market experience",
  mkPlace "Jim Thompson House" "museum" "Traditional Thai house museum" (Rat.divInt 43 10) "THB 150" "9:00-18:00" ["museums", "architecture", "silk", "traditional"] "Beautiful example of traditional Thai architecture",
  mkPlace "Lumphini Park" "park" "Large park in the city center" (Rat.divInt 21 5) "Free" "4:30-21:00" ["parks", "jogging", "tai chi", "relaxation"] "Green oasis in bustling Bangkok"
]⟩

/-- The static knowledge base: `places_database.get(location_key)`. -/
def placesDatabase : String → Option City
  | "tokyo" => some tokyoCity
  | "paris" => some parisCity
  | "london" => some londonCity
  | "new york" => some newyorkCity
  | "barcelona" => some barcelonaCity
  | "rome" => some romeCity
  | "amsterdam" => some amsterdamCity
  | "dubai" => some dubaiCity
  | "sydney" => some sydneyCity
  | "singapore" => some singaporeCity
  | "bangkok" => some bangkokCity
  | _ => none

/-! ### Relevance ranking — `_filter_places_by_interests` -/

/-- Normalization applied to each requested interest:
`interest.lower().strip()`. -/
def normalizeInterest (i : String) : String := pyStrip (pyLower i)

/-- The inner loop over `place_interests` (the lower-cased tags): `score`
gains `1` for every tag such that the interest is a substring of the tag or
the tag a substring of the interest. -/
def tagBonus (place : Place) (interest : String) (s : ℚ) : ℚ :=
  (place.interests.map pyLower).foldl
    (fun s pi => if strIn interest pi || strIn pi interest then s + 1 else s) s

/-- The body of the outer loop of `_filter_places_by_interests` for one
normalized interest: the tag bonuses, then `+ 0.5` when the interest occurs
in the lower-cased `category`, then `+ 0.3` when it occurs in the
lower-cased `description`. -/
def scoreStep (place : Place) (score : ℚ) (interest : String) : ℚ :=
  let score := tagBonus place interest score
  let score := if strIn interest (pyLower place.category)
    then score + Rat.divInt 1 2 else score
  if strIn interest (pyLower place.description)
    then score + Rat.divInt 3 10 else score

/-- The per-place relevance score of `_filter_places_by_interests`,
mirroring its nested loops: starting from `score = 0`, run `scoreStep` for
each normalized interest. -/
def scoreOfPlace (place : Place) (normInterests : List String) : ℚ :=
  normInterests.foldl (scoreStep place) 0

/-- The `scored_places` list: each place paired with its score, keeping only
scores `> 0`, in input order. -/
def scoredList (places : List Place) (normInterests : List String) :
    List (Place × ℚ) :=
  places.filterMap (fun p =>
    let s := scoreOfPlace p normInterests
    if 0 < s then some (p, s) else none)

/-- Inserts a scored place into a list sorted by descending score, before the
first entry whose score is `≤` its own. -/
def insertDesc (x : Place × ℚ) : List (Place × ℚ) → List (Place × ℚ)
  | [] => [x]
  | y :: ys => if y.2 ≤ x.2 then x :: y :: ys else y :: insertDesc x ys

/-- Stable descending sort by score.  This models CPython's
`scored_places.sort(key=lambda x: x[1], reverse=True)`: CPython's sort is
stable and `reverse=True` keeps equal keys in input order, and the theorems
below establish exactly that characterizing pair of properties (descending
scores, score classes preserved in input order), which determines the
permutation uniquely. -/
def sortDesc (l : List (Place × ℚ)) : List (Place × ℚ) := l.foldr insertDesc []

/-- `_filter_places_by_interests(places, interests)`: top 10 in input order
when `interests` is empty, otherwise the scored, sorted list truncated to 12
with scores projected away. -/
def filterPlacesByInterests (places : List Place) (interests : List String) :
    List Place :=
  if interests.isEmpty then places.take 10
  else
    let normalized := interests.map normalizeInterest
    ((sortDesc (scoredList places normalized)).take 12).map Prod.fst

/-! ### `LocalDiscoveryData` — `src/app/models.py` and
`_convert_to_discovery_data` -/

/-- `LocalExperience` of `app/models.py`.  Field order: name, description,
category, location, price_range, rating, opening_hours, booking_required,
contact_info, why_recommended, seasonal_info. -/
structure LocalExperience where
  name : String
  description : String
  category : String
  location : String
  price_range : Option String
  rating : Option ℚ
  opening_hours : Option String
  booking_required : Bool
  contact_info : Option String
  why_recommended : String
  seasonal_info : Option String
  deriving DecidableEq, Repr

/-- A sample event produced by `_generate_sample_events`. -/
structure EventRec where
  name : String
  date : String
  location : String
  deriving DecidableEq, Repr

/-- A restaurant summary dict built by `_convert_to_discovery_data`. -/
structure RestaurantRec where
  name : String
  cuisine : String
  rating : Option ℚ
  price_range : Option String
  location : String
  deriving DecidableEq, Repr

/-- An attraction summary dict built by `_convert_to_discovery_data`. -/
structure AttractionRec where
  name : String
  category : String
  rating : Option ℚ
  description : String
  location : String
  deriving DecidableEq, Repr

/-- A deal dict of `_generate_sample_deals`. -/
structure DealRec where
  description : String
  discount : String
  expires : String
  deriving DecidableEq, Repr

/-- `LocalDiscoveryData` of `app/models.py`.  Field order: location,
interests, total_results, experiences, events, restaurants, attractions,
deals. -/
structure LocalDiscoveryData where
  location : String
  interests : List String
  total_results : Nat
  experiences : List LocalExperience
  events : List EventRec
  restaurants : List RestaurantRec
  attractions : List AttractionRec
  deals : List DealRec
  deriving DecidableEq, Repr

/-- The five base events of `_generate_sample_events`. -/
def baseEvents (location : String) : List EventRec :=
  [⟨"Local Food Festival", "This weekend", location⟩,
   ⟨"Art Gallery Opening", "Next Friday", location⟩,
   ⟨"Cultural Performance", "Every evening", location⟩,
   ⟨"Night Market", "Wednesday & Saturday", location⟩,
   ⟨"Walking Tour", "Daily", location⟩]

/-- `_generate_sample_deals` (its `location` argument is unused). -/
def sampleDeals (_location : String) : List DealRec :=
  [⟨"10% off museum admissions", "10%", "End of month"⟩,
   ⟨"Free walking tour booking", "100%", "Limited time"⟩,
   ⟨"Happy hour at local restaurants", "20%", "Daily 4-6 PM"⟩]

/-- The `LocalExperience` built for one place. -/
def toExperience (location : String) (p : Place) : LocalExperience :=
  ⟨p.name, p.description, p.category, location, p.price_range, p.rating,
    p.opening_hours, p.booking_required, p.contact_info, p.why_recommended,
    p.seasonal_info⟩

/-- Categories routed to the `restaurants` list. -/
def restaurantCategories : List String := ["restaurant", "food", "market"]

/-- Categories routed to the `attractions` list (tested only when the
restaurant branch did not fire — `elif`). -/
def attractionCategories : List String :=
  ["landmark", "museum", "historical", "park"]

/-- `_convert_to_discovery_data(location, interests, places)`.  The call to
`random.sample(base_events, 3)` is modelled by the explicit selection
function `sample`, quantified over in every theorem. -/
def convertToDiscoveryData (sample : List EventRec → List EventRec)
    (location : String) (interests : List String) (places : List Place) :
    LocalDiscoveryData :=
  let experiences := places.map (toExperience location)
  let restaurants :=
    (places.filter (fun p => restaurantCategories.contains p.category)).map
      (fun p => ⟨p.name, p.cuisine.getD "Local", p.rating, p.price_range,
        location⟩)
  let attractions :=
    (places.filter (fun p => !restaurantCategories.contains p.category &&
        attractionCategories.contains p.category)).map
      (fun p => ⟨p.name, p.category, p.rating, p.description, location⟩)
  ⟨location, interests, experiences.length, experiences,
    sample (baseEvents location), restaurants, attractions,
    sampleDeals location⟩

/-! ### Discovery aggregator — `discover_places` -/

/-- The lookup key: `location.lower().replace(" ", "").split(",")[0]`. -/
def locationKey (location : String) : String :=
  ⟨((location.data.map lowerChar).filter (fun c => !(c == ' '))).takeWhile
      (fun c => !(c == ','))⟩

/-- The four location-parameterized records of `_fallback_discovery_data`. -/
def fallbackPlaces : List Place :=
  [⟨"City Center", "district", "Main city center with shops and restaurants",
      some (4 : ℚ), some "Free", some "24/7", [], "Heart of the city",
      false, none, none, none⟩,
   ⟨"Central Museum", "museum", "Main city museum with local history",
      some (Rat.divInt 21 5), some "$10-15", some "10:00-17:00", [],
      "Learn about local culture and history", false, none, none, none⟩,
   ⟨"Historic District", "historical",
      "Old part of town with historic buildings", some (Rat.divInt 41 10),
      some "Free", some "24/7", [], "Beautiful historic architecture",
      false, none, none, none⟩,
   ⟨"Local Market", "market", "Traditional market with local products",
      some (Rat.divInt 43 10), some "$5-20", some "8:00-18:00", [],
      "Authentic local experience", false, none, none, none⟩]

/-- Outcome of `_generate_places_with_ai` up to (but not including) the final
conversion: the `GOOGLE_API_KEY` may be missing (`unavailable`), generation
or JSON extraction may raise or find no object (`failed`, caught and turned
into the fallback), or a `places` list may be parsed (`parsed`). -/
inductive AiOutcome where
  | unavailable : AiOutcome
  | failed : AiOutcome
  | parsed : List Place → AiOutcome
  deriving DecidableEq

/-- `discover_places(location, interests)`: static knowledge-base path when
the normalized location key is in `places_database`, otherwise the AI path
with its fallback.  Every branch returns a `LocalDiscoveryData`; no branch
raises (all exceptions in the source are caught and routed to the
fallback). -/
def discoverPlaces (sample : List EventRec → List EventRec)
    (location : String) (interests : List String) (ai : AiOutcome) :
    LocalDiscoveryData :=
  match placesDatabase (locationKey location) with
  | some city =>
      convertToDiscoveryData sample location interests
        (filterPlacesByInterests city.places interests)
  | none =>
      match ai with
      | .parsed places =>
          convertToDiscoveryData sample location interests places
      | _ => convertToDiscoveryData sample location interests fallbackPlaces

/-! ### Scraping tools — `travel_tools.py`

Per-URL cache/blacklist handling of `HotelSearchTool._arun` and
`ActivitySearchTool._arun`.  A cache file is modelled by `HotelCacheFile` /
`ActivityCacheFile`; `timestamp` is the stored `"timestamp"` field and
`writtenAt` the file's modification time (`os.path.getmtime`) — the code
writes both at the same moment, but the blacklist check reads the former and
the freshness check the latter, so both are kept.  Timestamps are integer
seconds. -/

/-- `ContactInfo` of `travel_tools.py`. -/
structure ContactData where
  email : Option String
  phone : Option String
  website : Option String
  deriving DecidableEq, Repr

/-- `LodgingInfo` of `travel_tools.py`. -/
structure LodgingInfo where
  name : String
  description : Option String
  highlights : List String
  contact : Option ContactData
  address : Option String
  deriving DecidableEq, Repr

/-- `ActivityInfo` of `travel_tools.py`. -/
structure ActivityInfo where
  name : String
  description : Option String
  location : Option String
  deriving DecidableEq, Repr

/-- The blacklist cooldown, `timedelta(days=30)`, in seconds. -/
def blacklistCooldown : Int := 30 * 86400

/-- The cache freshness window, `timedelta(days=7)`, in seconds. -/
def cacheTTL : Int := 7 * 86400

/-- A hotel cache file `cached_results/hotels/<key>.json`. -/
structure HotelCacheFile where
  blacklisted : Bool
  timestamp : Int
  writtenAt : Int
  lodgings : List LodgingInfo
  reason : Option String
  deriving DecidableEq, Repr

/-- An activity cache file `cached_results/activities/<key>.json`.  A
successful write stores no `"blacklisted"` key, which reads back as false. -/
structure ActivityCacheFile where
  blacklisted : Bool
  timestamp : Int
  writtenAt : Int
  activities : List ActivityInfo
  reason : Option String
  deriving DecidableEq, Repr

/-- What the per-URL loop body decides to do before any scraping. -/
inductive HotelGateAction where
  | skipped : HotelGateAction
  | useCache : List LodgingInfo → HotelGateAction
  | fetch : HotelGateAction
  deriving DecidableEq, Repr

/-- Likewise for the activity loop. -/
inductive ActivityGateAction where
  | skipped : ActivityGateAction
  | useCache : List ActivityInfo → ActivityGateAction
  | fetch : ActivityGateAction
  deriving DecidableEq, Repr

/-- The cache/blacklist gate of `HotelSearchTool._arun` for one URL at time
`now`: a blacklisted entry is skipped while `now - timestamp < 30 days` and
re-fetched after; a non-blacklisted entry is reused while
`now - mtime < 7 days` and re-fetched after; a missing file is fetched. -/
def hotelGate (entry : Option HotelCacheFile) (now : Int) : HotelGateAction :=
  match entry with
  | none => .fetch
  | some e =>
    if e.blacklisted then
      if now - e.timestamp < blacklistCooldown then .skipped else .fetch
    else
      if now - e.writtenAt < cacheTTL then .useCache e.lodgings else .fetch

/-- The gate of `ActivitySearchTool._arun`: same effect, but its freshness
check is not under an `else` — a blacklisted entry that survives the cooldown
check still goes through the (then necessarily stale) mtime check. -/
def activityGate (entry : Option ActivityCacheFile) (now : Int) :
    ActivityGateAction :=
  match entry with
  | none => .fetch
  | some e =>
    if e.blacklisted && now - e.timestamp < blacklistCooldown then .skipped
    else if now - e.writtenAt < cacheTTL then .useCache e.activities
    else .fetch

/-- Result of one attempted scrape+extract: a lodging list, or an exception
whose message is `err`. -/
inductive HotelFetchOutcome where
  | ok : List LodgingInfo → HotelFetchOutcome
  | err : String → HotelFetchOutcome
  deriving DecidableEq, Repr

/-- Likewise for the activity extraction. -/
inductive ActivityFetchOutcome where
  | ok : List ActivityInfo → ActivityFetchOutcome
  | err : String → ActivityFetchOutcome
  deriving DecidableEq, Repr

/-- `HotelSearchTool`'s classification of a size-budget failure:
`"maximum context length" in error_str.lower() or "token" in
error_str.lower()`. -/
def isTokenErrorHotel (err : String) : Bool :=
  strIn "maximum context length" (pyLower err) || strIn "token" (pyLower err)

/-- `ActivitySearchTool`'s classification:
`"maximum context length" in error_str.lower()`. -/
def isTokenErrorActivity (err : String) : Bool :=
  strIn "maximum context length" (pyLower err)

/-- The cache file written after a successful hotel extraction:
`{"blacklisted": False, "timestamp": now, "lodgings": [...]}`. -/
def hotelSuccessFile (now : Int) (lodgings : List LodgingInfo) :
    HotelCacheFile := ⟨false, now, now, lodgings, none⟩

/-- The blacklist file written on a token-limit failure: `{"blacklisted":
True, "reason": "Token limit exceeded", "timestamp": now, ...}`. -/
def hotelBlacklistFile (now : Int) : HotelCacheFile :=
  ⟨true, now, now, [], some "Token limit exceeded"⟩

/-- The activity success file `{"timestamp": now, "activities": [...]}` (no
`"blacklisted"` key, hence false). -/
def activitySuccessFile (now : Int) (activities : List ActivityInfo) :
    ActivityCacheFile := ⟨false, now, now, activities, none⟩

/-- The activity blacklist file. -/
def activityBlacklistFile (now : Int) : ActivityCacheFile :=
  ⟨true, now, now, [], some "Token limit exceeded"⟩

/-- One iteration of the hotel per-URL loop: the resulting cache file for the
URL and the lodgings contributed to `all_lodging_options`.  On a skip the
outcome argument is irrelevant (no scrape happens); on a fetch, a non-empty
extraction is cached and contributed, an empty one leaves everything
unchanged, and a failure blacklists exactly when `isTokenErrorHotel`. -/
def hotelProcessUrl (entry : Option HotelCacheFile) (now : Int)
    (outcome : HotelFetchOutcome) :
    Option HotelCacheFile × List LodgingInfo :=
  match hotelGate entry now with
  | .skipped => (entry, [])
  | .useCache ls => (entry, ls)
  | .fetch =>
    match outcome with
    | .ok ls => if ls.isEmpty then (entry, [])
                else (some (hotelSuccessFile now ls), ls)
    | .err e => (if isTokenErrorHotel e then some (hotelBlacklistFile now)
                 else entry, [])

/-- One iteration of the activity per-URL loop. -/
def activityProcessUrl (entry : Option ActivityCacheFile) (now : Int)
    (outcome : ActivityFetchOutcome) :
    Option ActivityCacheFile × List ActivityInfo :=
  match activityGate entry now with
  | .skipped => (entry, [])
  | .useCache as => (entry, as)
  | .fetch =>
    match outcome with
    | .ok as => if as.isEmpty then (entry, [])
                else (some (activitySuccessFile now as), as)
    | .err e => (if isTokenErrorActivity e then
                   some (activityBlacklistFile now)
                 else entry, [])

/-- Navigation outcome for one hotel URL.  In `HotelSearchTool._arun` the
`p.goto` / `wait_for_load_state` calls sit OUTSIDE the per-URL `try`, so
only failures raised after the page was reached (the extraction block) are
handled per-URL; `navFailed` is an exception raised by navigation itself. -/
inductive HotelNavOutcome where
  | reached : HotelFetchOutcome → HotelNavOutcome
  | navFailed : String → HotelNavOutcome
  deriving DecidableEq, Repr

/-- One full iteration of the hotel per-URL loop, navigation included.
`none` means the iteration does not complete: the navigation exception
propagates past the loop to the outer handler, which returns an error string
for the WHOLE request (`"An error occurred during web scraping: ..."`)
instead of skipping just this source. -/
def hotelStepWithNav (entry : Option HotelCacheFile) (now : Int)
    (nav : HotelNavOutcome) :
    Option (Option HotelCacheFile × List LodgingInfo) :=
  match hotelGate entry now with
  | .skipped => some (entry, [])
  | .useCache ls => some (entry, ls)
  | .fetch =>
    match nav with
    | .navFailed _ => none
    | .reached o => some (hotelProcessUrl entry now o)

/-! ### Duplicate filter of `ActivitySearchTool._arun` -/

/-- The loop over `all_activities` with its `seen_names` set: an activity
whose lower-cased name was already seen is dropped, otherwise it is kept and
its lower-cased name recorded. -/
def dedupAux (seen : List String) : List ActivityInfo → List ActivityInfo
  | [] => []
  | a :: as =>
    if pyLower a.name ∈ seen then dedupAux seen as
    else a :: dedupAux (pyLower a.name :: seen) as

/-- `filtered_activities`: the dedup pass starting from an empty seen-set. -/
def dedupActivities (as : List ActivityInfo) : List ActivityInfo :=
  dedupAux [] as

/-! ### Demo inputs used by witnesses and counterexamples -/

/-- Closed-form per-interest contribution to the relevance score: `1` per
matching tag (interest a substring of the lower-cased tag or conversely),
`+ 0.5` for a category hit, `+ 0.3` for a description hit. -/
def interestContribution (place : Place) (interest : String) : ℚ :=
  (((place.interests.map pyLower).filter
      (fun pi => strIn interest pi || strIn pi interest)).length : ℚ)
  + (if strIn interest (pyLower place.category) then Rat.divInt 1 2 else 0)
  + (if strIn interest (pyLower place.description) then Rat.divInt 3 10
     else 0)

/-- The scoring rule as the specification words it (each interest earns the
tag bonus `1.0` at most once — when it matches SOME tag).  This definition
follows the spec's sentence, not the source; it exists only to be compared
with the source-derived `scoreOfPlace`. -/
def specScoreOfPlace (place : Place) (normInterests : List String) : ℚ :=
  (normInterests.map (fun interest =>
    (if (place.interests.map pyLower).any
        (fun pi => strIn interest pi || strIn pi interest) then (1 : ℚ)
     else 0)
    + (if strIn interest (pyLower place.category) then Rat.divInt 1 2 else 0)
    + (if strIn interest (pyLower place.description) then Rat.divInt 3 10
       else 0))).sum

/-- A place with two tags that both match the interest "food". -/
def tagDemoPlace : Place :=
  ⟨"Market Demo", "cafe", "quiet corner", none, none, none,
    ["food", "street food"], "", false, none, none, none⟩

/-- A place whose only hit is the single tag "food". -/
def matchPlace : Place :=
  ⟨"Food Spot", "cafe", "plain", none, none, none, ["food"], "", false,
    none, none, none⟩

/-- A place matching nothing about the interest "zzz". -/
def noMatchPlace : Place :=
  ⟨"Quiet Inn", "hotel", "plain rooms", none, none, none, ["sleep"], "",
    false, none, none, none⟩

/-- Two places whose names are equal after lower-casing and trimming. -/
def dupA : Place :=
  ⟨"Alpha", "food", "", none, none, none, ["food"], "", false, none, none,
    none⟩

/-- The partner of `dupA` (trailing space, different case). -/
def dupB : Place :=
  ⟨"alpha ", "food", "", none, none, none, ["food"], "", false, none, none,
    none⟩

/-- Thirteen activities with pairwise distinct lower-cased names. -/
def demo13 : List ActivityInfo :=
  [⟨"a01", none, none⟩, ⟨"a02", none, none⟩, ⟨"a03", none, none⟩,
   ⟨"a04", none, none⟩, ⟨"a05", none, none⟩, ⟨"a06", none, none⟩,
   ⟨"a07", none, none⟩, ⟨"a08", none, none⟩, ⟨"a09", none, none⟩,
   ⟨"a10", none, none⟩, ⟨"a11", none, none⟩, ⟨"a12", none, none⟩,
   ⟨"a13", none, none⟩]

/-- Eleven copies of `matchPlace`: eleven records that all score on
"food". -/
def elevenMatch : List Place :=
  [matchPlace, matchPlace, matchPlace, matchPlace, matchPlace, matchPlace,
   matchPlace, matchPlace, matchPlace, matchPlace, matchPlace]

/-- Modelled from the spec: `ExtractionFailed{reason}` of its Content
Extractor Adapter contract — a failure carries a semantic reason (here:
whether the extractor's input-size budget was exceeded) alongside the
exception message `str(e)`.  The code never sees the reason, only the
message; this definition exists to compare the claim's reason-based
condition with the code's message heuristic. -/
structure ExtractionFailure where
  sizeBudget : Bool
  message : String
  deriving DecidableEq, Repr

/-- A failure whose reason is not the input-size budget but whose message
contains "token": an authentication-token error. -/
def authTokenFailure : ExtractionFailure := ⟨false, "Invalid auth token"⟩

/-- A one-element lodging payload. -/
def demoLodgings : List LodgingInfo := [⟨"Cozy Hostel", none, [], none, none⟩]

/-! ### Theorems -/

/-- C4 (amended): when the per-URL extraction block fails, a blacklist
entry is written if and only if the error MESSAGE matches the tool's
token-limit heuristic — `"maximum context length"` or `"token"`
(case-insensitive) for the hotel tool, `"maximum context length"` for the
activity tool — a proxy for the size-budget reason that also fires on
non-size-budget failures mentioning "token"; on a non-matching failure the
source is skipped for the current request with no write.  A hotel
NAVIGATION failure, however, is raised outside the per-URL handler and
aborts the whole request rather than skipping the source. -/
theorem c4_failure_handling (hentry : Option HotelCacheFile)
    (aentry : Option ActivityCacheFile) (now : Int) (e : String)
    (o : HotelFetchOutcome)
    (hg : hotelGate hentry now = .fetch)
    (ag : activityGate aentry now = .fetch) :
    (isTokenErrorHotel e = true →
      hotelProcessUrl hentry now (.err e)
        = (some (hotelBlacklistFile now), []))
    ∧ (isTokenErrorHotel e = false →
      hotelProcessUrl hentry now (.err e) = (hentry, []))
    ∧ (isTokenErrorActivity e = true →
      activityProcessUrl aentry now (.err e)
        = (some (activityBlacklistFile now), []))
    ∧ (isTokenErrorActivity e = false →
      activityProcessUrl aentry now (.err e) = (aentry, []))
    ∧ hotelStepWithNav hentry now (.navFailed e) = none
    ∧ hotelStepWithNav hentry now (.reached o)
        = some (hotelProcessUrl hentry now o) := by
  refine ⟨?_, ?_, ?_, ?_, ?_, ?_⟩
  · intro h
    unfold hotelProcessUrl
    rw [hg]
    simp [h]
  · intro h
    unfold hotelProcessUrl
    rw [hg]
    simp [h]
  · intro h
    unfold activityProcessUrl
    rw [ag]
    simp [h]
  · intro h
    unfold activityProcessUrl
    rw [ag]
    simp [h]
  · unfold hotelStepWithNav
    rw [hg]
  · unfold hotelStepWithNav
    rw [hg]

/-- C4 counterexample: a failure whose reason is NOT the input-size budget —
an authentication-token error — is nevertheless blacklisted by the hotel
tool because its message contains "token"; and a navigation failure is not
"merely skipped": the iteration does not complete and the whole request
aborts. -/
theorem c4_nonbudget_failure_blacklisted :
    authTokenFailure.sizeBudget = false
    ∧ hotelProcessUrl none 0 (.err authTokenFailure.message)
        = (some (hotelBlacklistFile 0), [])
    ∧ hotelStepWithNav none 0 (.navFailed "net::ERR_CONNECTION_REFUSED")
        = none := by
  refine ⟨rfl, by decide, rfl⟩

/-- Witness for C4's amended behavior: with no cache file present (so the
gate fetches), a token-limit message blacklists, a timeout message leaves
the store untouched, a navigation failure aborts, and a reached page
delegates to the extraction step. -/
theorem c4_failure_handling_witness :
    (hotelProcessUrl none 0
        (.err "Error: maximum context length is 4097 tokens")
      = (some (hotelBlacklistFile 0), []))
    ∧ (hotelProcessUrl none 0 (.err "Timeout: navigation exceeded 60000ms")
      = (none, []))
    ∧ (activityProcessUrl none 0
        (.err "Error: maximum context length is 4097 tokens")
      = (some (activityBlacklistFile 0), []))
    ∧ (activityProcessUrl none 0 (.err "Timeout: navigation exceeded 60000ms")
      = (none, []))
    ∧ hotelStepWithNav none 0
        (.navFailed "Timeout: navigation exceeded 60000ms") = none
    ∧ hotelStepWithNav none 0 (.reached (.ok demoLodgings))
        = some (hotelProcessUrl none 0 (.ok demoLodgings)) := by
  refine ⟨?_, ?_, ?_, ?_, ?_, ?_⟩
  · exact (c4_failure_handling none none 0
      "Error: maximum context length is 4097 tokens" (.ok demoLodgings)
      rfl rfl).1 (by decide)
  · exact (c4_failure_handling none none 0
      "Timeout: navigation exceeded 60000ms" (.ok demoLodgings)
      rfl rfl).2.1 (by decide)
  · exact (c4_failure_handling none none 0
      "Error: maximum context length is 4097 tokens" (.ok demoLodgings)
      rfl rfl).2.2.1 (by decide)
  · exact (c4_failure_handling none none 0
      "Timeout: navigation exceeded 60000ms" (.ok demoLodgings)
      rfl rfl).2.2.2.1 (by decide)
  · exact (c4_failure_handling none none 0
      "Timeout: navigation exceeded 60000ms" (.ok demoLodgings)
      rfl rfl).2.2.2.2.1
  · exact (c4_failure_handling none none 0
      "Timeout: navigation exceeded 60000ms" (.ok demoLodgings)
      rfl rfl).2.2.2.2.2

/-- C5: for a key blacklisted at time `T`: while `now - T < 30 days` the key
is skipped without any fetch (the step's result does not depend on the fetch
outcome); once `now - T ≥ 30 days` the gate fetches despite the stale entry;
a successful non-empty fetch overwrites the entry with a non-blacklisted
cache file, and a repeated token-limit failure refreshes the blacklist
timestamp to `now`. -/
theorem c5_blacklist_cooldown_lifecycle (T now : Int)
    (ls : List LodgingInfo) (e : String) (o : HotelFetchOutcome) :
    (now - T < blacklistCooldown →
      hotelGate (some (hotelBlacklistFile T)) now = .skipped
      ∧ hotelProcessUrl (some (hotelBlacklistFile T)) now o
          = (some (hotelBlacklistFile T), []))
    ∧ (blacklistCooldown ≤ now - T →
      hotelGate (some (hotelBlacklistFile T)) now = .fetch
      ∧ (ls ≠ [] →
          hotelProcessUrl (some (hotelBlacklistFile T)) now (.ok ls)
            = (some (hotelSuccessFile now ls), ls)
          ∧ (hotelSuccessFile now ls).blacklisted = false)
      ∧ (isTokenErrorHotel e = true →
          hotelProcessUrl (some (hotelBlacklistFile T)) now (.err e)
            = (some (hotelBlacklistFile now), [])
          ∧ (hotelBlacklistFile now).timestamp = now)) := by
  constructor
  · intro h
    have hg : hotelGate (some (hotelBlacklistFile T)) now = .skipped := by
      simp [hotelGate, hotelBlacklistFile, h]
    exact ⟨hg, by simp [hotelProcessUrl, hg]⟩
  · intro h
    have hg : hotelGate (some (hotelBlacklistFile T)) now = .fetch := by
      simp [hotelGate, hotelBlacklistFile, not_lt.mpr h]
    refine ⟨hg, fun hls => ⟨?_, rfl⟩, fun he => ⟨?_, rfl⟩⟩
    · simp [hotelProcessUrl, hg, hls]
    · simp [hotelProcessUrl, hg, he]

/-- Witness for C5 at `T = 0` with cooldown 2592000 s: a read at 86400 s
skips; a read at 2592000 s fetches, success clears the block and a repeated
token failure re-stamps it. -/
theorem c5_blacklist_cooldown_lifecycle_witness :
    (hotelGate (some (hotelBlacklistFile 0)) 86400 = .skipped
      ∧ hotelProcessUrl (some (hotelBlacklistFile 0)) 86400
          (.ok demoLodgings) = (some (hotelBlacklistFile 0), []))
    ∧ hotelGate (some (hotelBlacklistFile 0)) 2592000 = .fetch
    ∧ hotelProcessUrl (some (hotelBlacklistFile 0)) 2592000
        (.ok demoLodgings) = (some (hotelSuccessFile 2592000 demoLodgings),
          demoLodgings)
    ∧ hotelProcessUrl (some (hotelBlacklistFile 0)) 2592000
        (.err "maximum context length exceeded")
        = (some (hotelBlacklistFile 2592000), []) := by
  refine ⟨?_, ?_, ?_, ?_⟩
  · exact (c5_blacklist_cooldown_lifecycle 0 86400 demoLodgings "x"
      (.ok demoLodgings)).1 (by decide)
  · exact ((c5_blacklist_cooldown_lifecycle 0 2592000 demoLodgings "x"
      (.ok demoLodgings)).2 (by decide)).1
  · exact (((c5_blacklist_cooldown_lifecycle 0 2592000 demoLodgings "x"
      (.ok demoLodgings)).2 (by decide)).2.1 (by decide)).1
  · exact (((c5_blacklist_cooldown_lifecycle 0 2592000 demoLodgings
      "maximum context length exceeded" (.ok demoLodgings)).2
      (by decide)).2.2 (by decide)).1

/-- C6: for a non-blacklisted cache file written at `writtenAt`, a read at
`now` reuses the cached payload exactly when `now - writtenAt < 7 days`
(freshness is recomputed from the stored write time at every read), in which
case the step performs no fetch (its result is independent of the fetch
outcome); at `now - writtenAt ≥ 7 days` the entry is stale and the gate
re-fetches. -/
theorem c6_cache_freshness (eFile : HotelCacheFile) (now : Int)
    (o : HotelFetchOutcome) (hb : eFile.blacklisted = false) :
    (hotelGate (some eFile) now = .useCache eFile.lodgings
      ↔ now - eFile.writtenAt < cacheTTL)
    ∧ (now - eFile.writtenAt < cacheTTL →
      hotelProcessUrl (some eFile) now o = (some eFile, eFile.lodgings))
    ∧ (cacheTTL ≤ now - eFile.writtenAt →
      hotelGate (some eFile) now = .fetch) := by
  refine ⟨⟨fun hg => ?_, fun h => ?_⟩, fun h => ?_, fun h => ?_⟩
  · by_contra hlt
    simp [hotelGate, hb, hlt] at hg
  · simp [hotelGate, hb, h]
  · have hg : hotelGate (some eFile) now = .useCache eFile.lodgings := by
      simp [hotelGate, hb, h]
    simp [hotelProcessUrl, hg]
  · simp [hotelGate, hb, not_lt.mpr h]

/-- Witness for C6: a file written at time 0 is reused at 3600 s and
re-fetched at exactly 604800 s. -/
theorem c6_cache_freshness_witness :
    hotelProcessUrl (some (hotelSuccessFile 0 demoLodgings)) 3600
        (.err "ignored") = (some (hotelSuccessFile 0 demoLodgings),
          demoLodgings)
    ∧ hotelGate (some (hotelSuccessFile 0 demoLodgings)) 604800 = .fetch := by
  constructor
  · exact (c6_cache_freshness (hotelSuccessFile 0 demoLodgings) 3600
      (.err "ignored") rfl).2.1 (by decide)
  · exact (c6_cache_freshness (hotelSuccessFile 0 demoLodgings) 604800
      (.err "ignored") rfl).2.2 (by decide)

/-- C7: `discover_places` is total — it returns a `LocalDiscoveryData` for
every location, interest list and AI outcome — and when the location has no
static knowledge-base entry and AI generation is unavailable or fails, the
experiences are exactly the four location-parameterized fallback records
City Center, Central Museum, Historic District and Local Market. -/
theorem c7_discovery_fallback (sample : List EventRec → List EventRec)
    (location : String) (interests : List String) (ai : AiOutcome)
    (hdb : placesDatabase (locationKey location) = none)
    (hai : ai = .unavailable ∨ ai = .failed) :
    (discoverPlaces sample location interests ai).experiences.map
        LocalExperience.name
      = ["City Center", "Central Museum", "Historic District", "Local Market"]
    ∧ (discoverPlaces sample location interests ai).experiences.map
        LocalExperience.location
      = [location, location, location, location] := by
  unfold discoverPlaces
  rw [hdb]
  rcases hai with h | h <;> subst h <;>
    simp [convertToDiscoveryData, fallbackPlaces, toExperience]

/-- Witness for C7: "Atlantis" has no knowledge-base entry; with the API key
missing the result is the four-record fallback catalog located in
Atlantis. -/
theorem c7_discovery_fallback_witness :
    (discoverPlaces id "Atlantis" [] .unavailable).experiences.map
        LocalExperience.name
      = ["City Center", "Central Museum", "Historic District", "Local Market"]
    ∧ (discoverPlaces id "Atlantis" [] .unavailable).experiences.map
        LocalExperience.location
      = ["Atlantis", "Atlantis", "Atlantis", "Atlantis"] :=
  c7_discovery_fallback id "Atlantis" [] .unavailable (by decide)
    (Or.inl rfl)

/-- C10: every `LocalDiscoveryData` produced by `discover_places` — on the
static, AI-generated and fallback paths alike, for every selection of sample
events — has `total_results` equal to the length of its `experiences`
list. -/
theorem c10_total_results_eq_length (sample : List EventRec → List EventRec)
    (location : String) (interests : List String) (ai : AiOutcome) :
    (discoverPlaces sample location interests ai).total_results
      = (discoverPlaces sample location interests ai).experiences.length := by
  unfold discoverPlaces
  cases placesDatabase (locationKey location) with
  | some city => rfl
  | none => cases ai <;> rfl

/-! ### Scoring lemmas and C1 -/

/-- Unrolling the inner tag loop: the run of conditional `+ 1`s adds the
number of matching tags. -/
theorem tagFoldl_eq (interest : String) (tags : List String) (s : ℚ) :
    tags.foldl
        (fun s pi => if strIn interest pi || strIn pi interest then s + 1
         else s) s
      = s + ((tags.filter
          (fun pi => strIn interest pi || strIn pi interest)).length : ℚ) := by
  induction tags generalizing s with
  | nil => simp
  | cons t ts ih =>
    rw [List.foldl_cons, List.filter_cons]
    by_cases h : (strIn interest t || strIn t interest) = true
    · rw [if_pos h, ih, if_pos h, List.length_cons]
      push_cast
      ring
    · rw [if_neg h, ih, if_neg h]

/-- `tagBonus` in closed form. -/
theorem tagBonus_eq (place : Place) (interest : String) (s : ℚ) :
    tagBonus place interest s
      = s + (((place.interests.map pyLower).filter
          (fun pi => strIn interest pi || strIn pi interest)).length : ℚ) :=
  tagFoldl_eq interest (place.interests.map pyLower) s

/-- One outer-loop iteration adds exactly `interestContribution`. -/
theorem scoreStep_eq (place : Place) (s : ℚ) (interest : String) :
    scoreStep place s interest = s + interestContribution place interest := by
  by_cases h1 : strIn interest (pyLower place.category) = true <;>
    by_cases h2 : strIn interest (pyLower place.description) = true <;>
    simp [scoreStep, interestContribution, tagBonus_eq, h1, h2] <;>
    ring

/-- Unrolling the outer loop: the fold is the sum of the per-interest
contributions. -/
theorem foldl_scoreStep (place : Place) (l : List String) (s : ℚ) :
    l.foldl (scoreStep place) s
      = s + (l.map (interestContribution place)).sum := by
  induction l generalizing s with
  | nil => simp
  | cons i is ih =>
    rw [List.foldl_cons, scoreStep_eq, ih, List.map_cons, List.sum_cons]
    ring

/-- The relevance score is the sum over interests of the per-interest
contributions. -/
theorem scoreOfPlace_eq_sum (place : Place) (l : List String) :
    scoreOfPlace place l = (l.map (interestContribution place)).sum := by
  unfold scoreOfPlace
  rw [foldl_scoreStep, zero_add]

/-- C1 (amended): for every record and interest list normalized by
lower-casing and trimming, the relevance score is the sum, over the
normalized interests, of `1.0` for EACH lower-cased interest tag of the
record of which the interest is a substring or a superstring (a pair count,
not at most `1.0` per interest), plus `0.5` for a category substring hit,
plus `0.3` for a description substring hit. -/
theorem c1_score_counts_each_matching_tag (place : Place)
    (interests : List String) :
    scoreOfPlace place (interests.map normalizeInterest)
      = ((interests.map normalizeInterest).map
          (interestContribution place)).sum :=
  scoreOfPlace_eq_sum place (interests.map normalizeInterest)

/-- C1 counterexample: on a record with tag list `["food", "street food"]`
and interest `"food"`, the code's score (2: one point per matching tag)
differs from the claim's reading (1: one point per interest matching any
tag). -/
theorem c1_spec_reading_counterexample :
    scoreOfPlace tagDemoPlace ["food"]
      ≠ specScoreOfPlace tagDemoPlace ["food"] := by
  have e1 : ((tagDemoPlace.interests.map pyLower).filter
      (fun pi => strIn "food" pi || strIn pi "food")).length = 2 := by decide
  have e2 : strIn "food" (pyLower tagDemoPlace.category) = false := by decide
  have e3 : strIn "food" (pyLower tagDemoPlace.description) = false := by
    decide
  have e4 : (tagDemoPlace.interests.map pyLower).any
      (fun pi => strIn "food" pi || strIn pi "food") = true := by decide
  have hs : scoreOfPlace tagDemoPlace ["food"] = 2 := by
    rw [scoreOfPlace_eq_sum, List.map_cons, List.map_nil, List.sum_cons,
      List.sum_nil]
    unfold interestContribution
    rw [e1, e2, e3]
    norm_num
  have ht : specScoreOfPlace tagDemoPlace ["food"] = 1 := by
    unfold specScoreOfPlace
    rw [List.map_cons, List.map_nil, List.sum_cons, List.sum_nil, e4, e2, e3]
    norm_num
  rw [hs, ht]
  norm_num

/-! ### Stable-sort lemmas and the ranking claims -/

/-- `insertDesc` only rearranges: the result is a permutation of the element
put on top of the old list. -/
theorem insertDesc_perm (x : Place × ℚ) (l : List (Place × ℚ)) :
    (insertDesc x l).Perm (x :: l) := by
  induction l with
  | nil => exact List.Perm.refl _
  | cons y ys ih =>
    unfold insertDesc
    by_cases h : y.2 ≤ x.2
    · rw [if_pos h]
    · rw [if_neg h]
      exact (List.Perm.cons y ih).trans (List.Perm.swap x y ys)

/-- `sortDesc` permutes its input. -/
theorem sortDesc_perm (l : List (Place × ℚ)) : (sortDesc l).Perm l := by
  induction l with
  | nil => exact List.Perm.refl _
  | cons a l ih =>
    exact (insertDesc_perm a (sortDesc l)).trans (List.Perm.cons a ih)

/-- Membership through `insertDesc`. -/
theorem mem_insertDesc {z x : Place × ℚ} {l : List (Place × ℚ)} :
    z ∈ insertDesc x l ↔ z = x ∨ z ∈ l := by
  rw [(insertDesc_perm x l).mem_iff, List.mem_cons]

/-- Inserting into a list with non-increasing scores keeps the scores
non-increasing. -/
theorem insertDesc_pairwise (x : Place × ℚ) (l : List (Place × ℚ))
    (h : l.Pairwise (fun a b => b.2 ≤ a.2)) :
    (insertDesc x l).Pairwise (fun a b => b.2 ≤ a.2) := by
  induction l with
  | nil => simp [insertDesc]
  | cons y ys ih =>
    rw [List.pairwise_cons] at h
    unfold insertDesc
    by_cases hle : y.2 ≤ x.2
    · rw [if_pos hle]
      refine List.Pairwise.cons ?_ (List.Pairwise.cons h.1 h.2)
      intro z hz
      rcases List.mem_cons.mp hz with hz | hz
      · exact hz ▸ hle
      · exact le_trans (h.1 z hz) hle
    · rw [if_neg hle]
      refine List.Pairwise.cons ?_ (ih h.2)
      intro z hz
      rcases mem_insertDesc.mp hz with hz | hz
      · exact hz ▸ le_of_not_le hle
      · exact h.1 z hz

/-- The sorted list has non-increasing scores. -/
theorem sortDesc_pairwise (l : List (Place × ℚ)) :
    (sortDesc l).Pairwise (fun a b => b.2 ≤ a.2) := by
  induction l with
  | nil => simp [sortDesc]
  | cons a l ih => exact insertDesc_pairwise a (sortDesc l) ih

/-- Restricted to one score class, `insertDesc` prepends the new element (it
goes in front of the ties already present only when no tie precedes it —
and within a class nothing with a different score separates them). -/
theorem insertDesc_filter_score (s : ℚ) (x : Place × ℚ)
    (l : List (Place × ℚ)) :
    (insertDesc x l).filter (fun z => decide (z.2 = s))
      = if x.2 = s then x :: l.filter (fun z => decide (z.2 = s))
        else l.filter (fun z => decide (z.2 = s)) := by
  induction l with
  | nil => by_cases h : x.2 = s <;> simp [insertDesc, h]
  | cons y ys ih =>
    unfold insertDesc
    by_cases hle : y.2 ≤ x.2
    · rw [if_pos hle]
      by_cases hx : x.2 = s <;> simp [List.filter_cons, hx]
    · rw [if_neg hle]
      by_cases hx : x.2 = s
      · have hy : ¬ y.2 = s := fun hy => hle (le_of_eq (hy.trans hx.symm))
        simp [List.filter_cons, hy, ih, hx]
      · simp [List.filter_cons, ih, hx]

/-- Stability: sorting does not change the relative order inside one score
class — the class reads off in input order. -/
theorem sortDesc_filter_score (s : ℚ) (l : List (Place × ℚ)) :
    (sortDesc l).filter (fun z => decide (z.2 = s))
      = l.filter (fun z => decide (z.2 = s)) := by
  induction l with
  | nil => rfl
  | cons a l ih =>
    have h : sortDesc (a :: l) = insertDesc a (sortDesc l) := rfl
    rw [h, insertDesc_filter_score]
    by_cases ha : a.2 = s <;> simp [List.filter_cons, ha, ih]

/-- A non-empty list is not `isEmpty`. -/
theorem isEmpty_false_of_ne_nil {l : List String} (h : l ≠ []) :
    l.isEmpty = false := by
  cases l with
  | nil => exact absurd rfl h
  | cons a as => rfl

/-- With a non-empty interest list, `_filter_places_by_interests` is the
scored-sorted-truncated pipeline. -/
theorem filterPlaces_eq_of_ne_nil (places : List Place)
    (interests : List String) (h : interests ≠ []) :
    filterPlacesByInterests places interests
      = ((sortDesc (scoredList places
          (interests.map normalizeInterest))).take 12).map Prod.fst := by
  unfold filterPlacesByInterests
  rw [isEmpty_false_of_ne_nil h, if_neg Bool.false_ne_true]

/-- C8: for a non-empty interest set, the ranked output is the sorted scored
list truncated to 12: the scores are non-increasing (highest first), and
within any score class `s` the sorted list preserves the input order exactly
(filter equality), hence the truncated output's score class is an
order-preserving selection of the input's. -/
theorem c8_rank_sorted_stable (places : List Place)
    (interests : List String) (s : ℚ) (hne : interests ≠ []) :
    filterPlacesByInterests places interests
      = ((sortDesc (scoredList places
          (interests.map normalizeInterest))).take 12).map Prod.fst
    ∧ (sortDesc (scoredList places
        (interests.map normalizeInterest))).Pairwise
        (fun a b => b.2 ≤ a.2)
    ∧ (sortDesc (scoredList places (interests.map normalizeInterest))).filter
          (fun z => decide (z.2 = s))
        = (scoredList places (interests.map normalizeInterest)).filter
            (fun z => decide (z.2 = s))
    ∧ List.Sublist
        (((sortDesc (scoredList places
            (interests.map normalizeInterest))).take 12).filter
          (fun z => decide (z.2 = s)))
        ((scoredList places (interests.map normalizeInterest)).filter
          (fun z => decide (z.2 = s))) := by
  refine ⟨filterPlaces_eq_of_ne_nil places interests hne,
    sortDesc_pairwise _, sortDesc_filter_score s _, ?_⟩
  rw [← sortDesc_filter_score s
    (scoredList places (interests.map normalizeInterest))]
  exact (List.take_sublist 12 _).filter _

/-- Witness for C8 at one record and the interest "food". -/
theorem c8_rank_sorted_stable_witness :
    filterPlacesByInterests [matchPlace] ["food"]
      = ((sortDesc (scoredList [matchPlace]
          (["food"].map normalizeInterest))).take 12).map Prod.fst
    ∧ (sortDesc (scoredList [matchPlace]
        (["food"].map normalizeInterest))).Pairwise
        (fun a b => b.2 ≤ a.2)
    ∧ (sortDesc (scoredList [matchPlace]
          (["food"].map normalizeInterest))).filter
          (fun z => decide (z.2 = (1 : ℚ)))
        = (scoredList [matchPlace] (["food"].map normalizeInterest)).filter
            (fun z => decide (z.2 = (1 : ℚ)))
    ∧ List.Sublist
        (((sortDesc (scoredList [matchPlace]
            (["food"].map normalizeInterest))).take 12).filter
          (fun z => decide (z.2 = (1 : ℚ))))
        ((scoredList [matchPlace] (["food"].map normalizeInterest)).filter
          (fun z => decide (z.2 = (1 : ℚ)))) :=
  c8_rank_sorted_stable [matchPlace] ["food"] 1 (by decide)

/-- C9: with a non-empty interest set, a record whose relevance score
(at the normalized interests) is 0 never appears in the ranked output. -/
theorem c9_zero_score_excluded (places : List Place)
    (interests : List String) (p : Place) (hne : interests ≠ [])
    (h0 : scoreOfPlace p (interests.map normalizeInterest) = 0) :
    p ∉ filterPlacesByInterests places interests := by
  intro hmem
  rw [filterPlaces_eq_of_ne_nil places interests hne] at hmem
  obtain ⟨x, hx, hxp⟩ := List.mem_map.mp hmem
  have hx1 : x ∈ sortDesc (scoredList places
      (interests.map normalizeInterest)) :=
    (List.take_sublist 12 _).subset hx
  have hx2 : x ∈ scoredList places (interests.map normalizeInterest) :=
    (sortDesc_perm _).subset hx1
  simp only [scoredList] at hx2
  obtain ⟨a, ha, hfa⟩ := List.mem_filterMap.mp hx2
  by_cases hpos : 0 < scoreOfPlace a (interests.map normalizeInterest)
  · rw [if_pos hpos] at hfa
    have hx' : (a, scoreOfPlace a (interests.map normalizeInterest)) = x :=
      Option.some.inj hfa
    rw [← hx'] at hxp
    have hap : a = p := hxp
    rw [hap, h0] at hpos
    exact lt_irrefl 0 hpos
  · rw [if_neg hpos] at hfa
    exact Option.noConfusion hfa

/-- Witness for C9: a record with no "zzz" match is excluded. -/
theorem c9_zero_score_excluded_witness :
    noMatchPlace ∉ filterPlacesByInterests [noMatchPlace] ["zzz"] :=
  c9_zero_score_excluded [noMatchPlace] ["zzz"] noMatchPlace (by decide)
    (by decide)

/-! ### Evaluation helpers, truncation (C2) and deduplication (C3) -/

/-- `scored_places` on an empty input. -/
theorem scoredList_nil (ni : List String) : scoredList [] ni = [] := rfl

/-- A positively scored head enters `scored_places`. -/
theorem scoredList_cons_pos (p : Place) (ps : List Place) (ni : List String)
    (h : 0 < scoreOfPlace p ni) :
    scoredList (p :: ps) ni = (p, scoreOfPlace p ni) :: scoredList ps ni := by
  simp only [scoredList, List.filterMap_cons, if_pos h]

/-- The normalization of the one-interest list `["food"]`. -/
theorem normFood : (["food"].map normalizeInterest) = ["food"] := by decide

/-- The score of `matchPlace` against `["food"]` is exactly 1. -/
theorem matchPlace_score : scoreOfPlace matchPlace ["food"] = 1 := by
  have e1 : ((matchPlace.interests.map pyLower).filter
      (fun pi => strIn "food" pi || strIn pi "food")).length = 1 := by decide
  have e2 : strIn "food" (pyLower matchPlace.category) = false := by decide
  have e3 : strIn "food" (pyLower matchPlace.description) = false := by decide
  have hc : interestContribution matchPlace "food" = 1 := by
    unfold interestContribution
    rw [e1, e2, e3]
    norm_num
  rw [scoreOfPlace_eq_sum, List.map_cons, List.map_nil, List.sum_cons,
    List.sum_nil, hc]
  norm_num

/-- The score of `dupA` against `["food"]` is exactly 1.5. -/
theorem dupA_score : scoreOfPlace dupA ["food"] = Rat.divInt 3 2 := by
  have e1 : ((dupA.interests.map pyLower).filter
      (fun pi => strIn "food" pi || strIn pi "food")).length = 1 := by decide
  have e2 : strIn "food" (pyLower dupA.category) = true := by decide
  have e3 : strIn "food" (pyLower dupA.description) = false := by decide
  have hc : interestContribution dupA "food" = Rat.divInt 3 2 := by
    unfold interestContribution
    rw [e1, e2, e3]
    norm_num [Rat.divInt_eq_div]
  rw [scoreOfPlace_eq_sum, List.map_cons, List.map_nil, List.sum_cons,
    List.sum_nil, hc]
  norm_num

/-- The score of `dupB` against `["food"]` is exactly 1.5. -/
theorem dupB_score : scoreOfPlace dupB ["food"] = Rat.divInt 3 2 := by
  have e1 : ((dupB.interests.map pyLower).filter
      (fun pi => strIn "food" pi || strIn pi "food")).length = 1 := by decide
  have e2 : strIn "food" (pyLower dupB.category) = true := by decide
  have e3 : strIn "food" (pyLower dupB.description) = false := by decide
  have hc : interestContribution dupB "food" = Rat.divInt 3 2 := by
    unfold interestContribution
    rw [e1, e2, e3]
    norm_num [Rat.divInt_eq_div]
  rw [scoreOfPlace_eq_sum, List.map_cons, List.map_nil, List.sum_cons,
    List.sum_nil, hc]
  norm_num

/-- C2 counterexample: eleven records all matching the interest "food" on
the static knowledge-base path produce an eleven-record result — more than
the 10 the claim allows that path. -/
theorem c2_static_cap_counterexample :
    ¬ ((filterPlacesByInterests elevenMatch ["food"]).length ≤ 10) := by
  have hpos : 0 < scoreOfPlace matchPlace ["food"] := by
    rw [matchPlace_score]
    decide
  rw [filterPlaces_eq_of_ne_nil _ _ (by decide), normFood]
  show ¬ ((((sortDesc (scoredList
    (matchPlace :: matchPlace :: matchPlace :: matchPlace :: matchPlace ::
     matchPlace :: matchPlace :: matchPlace :: matchPlace :: matchPlace ::
     matchPlace :: []) ["food"])).take 12).map Prod.fst).length ≤ 10)
  rw [scoredList_cons_pos _ _ _ hpos, scoredList_cons_pos _ _ _ hpos,
    scoredList_cons_pos _ _ _ hpos, scoredList_cons_pos _ _ _ hpos,
    scoredList_cons_pos _ _ _ hpos, scoredList_cons_pos _ _ _ hpos,
    scoredList_cons_pos _ _ _ hpos, scoredList_cons_pos _ _ _ hpos,
    scoredList_cons_pos _ _ _ hpos, scoredList_cons_pos _ _ _ hpos,
    scoredList_cons_pos _ _ _ hpos, scoredList_nil, matchPlace_score]
  decide

/-- C2 (amended): the static knowledge-base result is capped at 12 records
(the empty-interest branch is capped at 10); the live-scraped activity path
applies no size cap — its duplicate filter keeps all 13 of 13
distinctly-named records. -/
theorem c2_result_caps (places : List Place) (interests : List String) :
    (filterPlacesByInterests places interests).length ≤ 12
    ∧ (interests = [] →
        (filterPlacesByInterests places interests).length ≤ 10)
    ∧ (dedupActivities demo13).length = 13 := by
  refine ⟨?_, ?_, by decide⟩
  · by_cases h : interests = []
    · subst h
      unfold filterPlacesByInterests
      rw [if_pos (show ([] : List String).isEmpty = true from rfl)]
      exact le_trans (List.length_take_le 10 places) (by norm_num)
    · rw [filterPlaces_eq_of_ne_nil places interests h, List.length_map]
      exact List.length_take_le 12 _
  · intro h
    subst h
    unfold filterPlacesByInterests
    rw [if_pos (show ([] : List String).isEmpty = true from rfl)]
    exact List.length_take_le 10 places

/-- Witness for C2's amended caps at the empty input. -/
theorem c2_result_caps_witness :
    (filterPlacesByInterests [] []).length ≤ 12
    ∧ (filterPlacesByInterests [] []).length ≤ 10
    ∧ (dedupActivities demo13).length = 13 :=
  ⟨(c2_result_caps [] []).1, (c2_result_caps [] []).2.1 rfl,
    (c2_result_caps [] []).2.2⟩

/-- Once a lower-cased name is in `seen_names`, no record with that name
survives the duplicate filter. -/
theorem dedupAux_filter_of_seen (n : String) (as : List ActivityInfo)
    (seen : List String) (h : n ∈ seen) :
    (dedupAux seen as).filter (fun a => pyLower a.name == n) = [] := by
  induction as generalizing seen with
  | nil => rfl
  | cons a as ih =>
    unfold dedupAux
    by_cases ha : pyLower a.name ∈ seen
    · rw [if_pos ha]
      exact ih seen h
    · rw [if_neg ha, List.filter_cons]
      have hne : (pyLower a.name == n) = false := by
        rw [beq_eq_false_iff_ne]
        intro he
        exact ha (he ▸ h)
      rw [hne, if_neg Bool.false_ne_true]
      exact ih _ (List.mem_cons_of_mem _ h)

/-- For a lower-cased name not yet seen, the duplicate filter keeps exactly
the first record carrying it. -/
theorem dedupAux_filter_eq (n : String) (as : List ActivityInfo)
    (seen : List String) (h : ¬ n ∈ seen) :
    (dedupAux seen as).filter (fun a => pyLower a.name == n)
      = (as.filter (fun a => pyLower a.name == n)).take 1 := by
  induction as generalizing seen with
  | nil => rfl
  | cons a as ih =>
    unfold dedupAux
    by_cases ha : pyLower a.name ∈ seen
    · have hne : (pyLower a.name == n) = false := by
        rw [beq_eq_false_iff_ne]
        intro he
        exact h (he ▸ ha)
      rw [if_pos ha, ih seen h, List.filter_cons, hne,
        if_neg Bool.false_ne_true]
    · rw [if_neg ha, List.filter_cons, List.filter_cons]
      by_cases hn : (pyLower a.name == n) = true
      · have he : pyLower a.name = n := beq_iff_eq.mp hn
        rw [hn, if_pos rfl, if_pos rfl,
          dedupAux_filter_of_seen n as _ (he ▸ List.mem_cons_self _ _)]
        rfl
      · have hn' : (pyLower a.name == n) = false := by
          rw [Bool.not_eq_true] at hn
          exact hn
        rw [hn', if_neg Bool.false_ne_true, if_neg Bool.false_ne_true]
        refine ih _ ?_
        intro hmem
        rcases List.mem_cons.mp hmem with he | he
        · exact absurd (beq_iff_eq.mpr he.symm) (by rw [hn']; decide)
        · exact h he

/-- C3 (amended): only the live-scraped activity path deduplicates, by name
equality after lower-casing only (no trimming), and it keeps the first
occurrence in input order (scores play no role): for every name, the
filtered output restricted to that lower-cased name is the first input
record carrying it. -/
theorem c3_live_dedup_keeps_first (as : List ActivityInfo) (n : String) :
    (dedupActivities as).filter (fun a => pyLower a.name == n)
      = (as.filter (fun a => pyLower a.name == n)).take 1 :=
  dedupAux_filter_eq n as [] (List.not_mem_nil n)

/-- C3 counterexample: on the static knowledge-base path two records whose
names are equal after lower-casing and trimming ("Alpha" and "alpha ") both
survive — the result does not contain exactly one record with that name. -/
theorem c3_static_path_keeps_duplicates :
    ¬ (((filterPlacesByInterests [dupA, dupB] ["food"]).filter
        (fun p => pyStrip (pyLower p.name) == "alpha")).length = 1) := by
  have hposA : 0 < scoreOfPlace dupA ["food"] := by
    rw [dupA_score]
    decide
  have hposB : 0 < scoreOfPlace dupB ["food"] := by
    rw [dupB_score]
    decide
  rw [filterPlaces_eq_of_ne_nil _ _ (by decide), normFood,
    scoredList_cons_pos _ _ _ hposA, scoredList_cons_pos _ _ _ hposB,
    scoredList_nil, dupA_score, dupB_score]
  decide

end Planner
